import Mathlib

/-!
Verification of the `endianness` crate (`src/lib.rs`): functions that read
fixed-width numbers from a byte slice in big- or little-endian order,
returning a `Result` instead of panicking.

Modelling conventions:
* a Rust `u8` byte is `Fin 256`;
* a Rust slice `&[u8]` is a `List Byte`; slice indexing `data[i]` is
  `List.get? data i`, and a possibly-panicking function body is wrapped in
  `Option`, with `none` standing for the out-of-bounds panic branch of
  indexing (which the bound check is supposed to make unreachable);
* Rust `uN` arithmetic is `Nat` arithmetic reduced `% 2 ^ N` exactly where
  the machine operation wraps; `as iN` casts are explicit two's-complement
  reinterpretations into `Int`;
* an `f32`/`f64` is modelled by its IEEE-754 bit pattern (a `Nat`), since
  `mem::transmute::<u32, f32>` is the identity on bits; a separate
  interpretation function maps a finite bit pattern to its rational value.
-/

namespace Endianness

deriving instance DecidableEq for Except

/-- A byte of the input buffer: Rust `u8`, a value in `[0, 256)`. -/
abbrev Byte := Fin 256

/-- The `ByteOrder` type: the order of bytes in a stream we read from. -/
inductive ByteOrder where
  | LittleEndian
  | BigEndian
deriving DecidableEq

/-- The error type of the crate: the slice is too short to read the
requested type. -/
inductive Error where
  | ShortSlice
deriving DecidableEq

/-- Function `read_u16` from `src/lib.rs`: bound check, then big-endian
`(data[0] << 8) + data[1]` or little-endian `(data[1] << 8) + data[0]`,
on `u16` (hence the `% 2 ^ 16`). -/
def read_u16 (data : List Byte) (endianness : ByteOrder) :
    Option (Except Error Nat) :=
  if data.length < 2 then
    some (Except.error Error.ShortSlice)
  else
    match endianness with
    | ByteOrder.BigEndian =>
        match data.get? 0, data.get? 1 with
        | some b0, some b1 =>
            some (Except.ok (((b0.val <<< 8) % 2 ^ 16 + b1.val) % 2 ^ 16))
        | _, _ => none
    | ByteOrder.LittleEndian =>
        match data.get? 1, data.get? 0 with
        | some b1, some b0 =>
            some (Except.ok (((b1.val <<< 8) % 2 ^ 16 + b0.val) % 2 ^ 16))
        | _, _ => none

/-- Rust `u16 as i16`: reinterpret the low 16 bits as a two's-complement
signed value. -/
def toI16 (v : Nat) : Int :=
  if v % 2 ^ 16 < 2 ^ 15 then ((v % 2 ^ 16 : Nat) : Int)
  else ((v % 2 ^ 16 : Nat) : Int) - 2 ^ 16

/-- Function `read_i16` from `src/lib.rs`: `Ok(try!(read_u16(data, endianness)) as i16)`. -/
def read_i16 (data : List Byte) (endianness : ByteOrder) :
    Option (Except Error Int) :=
  match read_u16 data endianness with
  | some (Except.ok v) => some (Except.ok (toI16 v))
  | some (Except.error e) => some (Except.error e)
  | none => none

/-- Function `read_u32` from `src/lib.rs`. -/
def read_u32 (data : List Byte) (endianness : ByteOrder) :
    Option (Except Error Nat) :=
  if data.length < 4 then
    some (Except.error Error.ShortSlice)
  else
    match endianness with
    | ByteOrder.BigEndian =>
        match data.get? 0, data.get? 1, data.get? 2, data.get? 3 with
        | some b0, some b1, some b2, some b3 =>
            some (Except.ok
              (((((b0.val <<< 24) % 2 ^ 32
                 + (b1.val <<< 16) % 2 ^ 32) % 2 ^ 32
                 + (b2.val <<< 8) % 2 ^ 32) % 2 ^ 32
                 + b3.val) % 2 ^ 32))
        | _, _, _, _ => none
    | ByteOrder.LittleEndian =>
        match data.get? 3, data.get? 2, data.get? 1, data.get? 0 with
        | some b3, some b2, some b1, some b0 =>
            some (Except.ok
              (((((b3.val <<< 24) % 2 ^ 32
                 + (b2.val <<< 16) % 2 ^ 32) % 2 ^ 32
                 + (b1.val <<< 8) % 2 ^ 32) % 2 ^ 32
                 + b0.val) % 2 ^ 32))
        | _, _, _, _ => none

/-- Rust `u32 as i32`: reinterpret the low 32 bits as a two's-complement
signed value. -/
def toI32 (v : Nat) : Int :=
  if v % 2 ^ 32 < 2 ^ 31 then ((v % 2 ^ 32 : Nat) : Int)
  else ((v % 2 ^ 32 : Nat) : Int) - 2 ^ 32

/-- Function `read_i32` from `src/lib.rs`: `Ok(try!(read_u32(data, endianness)) as i32)`. -/
def read_i32 (data : List Byte) (endianness : ByteOrder) :
    Option (Except Error Int) :=
  match read_u32 data endianness with
  | some (Except.ok v) => some (Except.ok (toI32 v))
  | some (Except.error e) => some (Except.error e)
  | none => none

/-- Function `read_u64` from `src/lib.rs`. -/
def read_u64 (data : List Byte) (endianness : ByteOrder) :
    Option (Except Error Nat) :=
  if data.length < 8 then
    some (Except.error Error.ShortSlice)
  else
    match endianness with
    | ByteOrder.BigEndian =>
        match data.get? 0, data.get? 1, data.get? 2, data.get? 3,
              data.get? 4, data.get? 5, data.get? 6, data.get? 7 with
        | some b0, some b1, some b2, some b3,
          some b4, some b5, some b6, some b7 =>
            some (Except.ok
              (((((((((b0.val <<< 56) % 2 ^ 64
                 + (b1.val <<< 48) % 2 ^ 64) % 2 ^ 64
                 + (b2.val <<< 40) % 2 ^ 64) % 2 ^ 64
                 + (b3.val <<< 32) % 2 ^ 64) % 2 ^ 64
                 + (b4.val <<< 24) % 2 ^ 64) % 2 ^ 64
                 + (b5.val <<< 16) % 2 ^ 64) % 2 ^ 64
                 + (b6.val <<< 8) % 2 ^ 64) % 2 ^ 64
                 + b7.val) % 2 ^ 64))
        | _, _, _, _, _, _, _, _ => none
    | ByteOrder.LittleEndian =>
        match data.get? 7, data.get? 6, data.get? 5, data.get? 4,
              data.get? 3, data.get? 2, data.get? 1, data.get? 0 with
        | some b7, some b6, some b5, some b4,
          some b3, some b2, some b1, some b0 =>
            some (Except.ok
              (((((((((b7.val <<< 56) % 2 ^ 64
                 + (b6.val <<< 48) % 2 ^ 64) % 2 ^ 64
                 + (b5.val <<< 40) % 2 ^ 64) % 2 ^ 64
                 + (b4.val <<< 32) % 2 ^ 64) % 2 ^ 64
                 + (b3.val <<< 24) % 2 ^ 64) % 2 ^ 64
                 + (b2.val <<< 16) % 2 ^ 64) % 2 ^ 64
                 + (b1.val <<< 8) % 2 ^ 64) % 2 ^ 64
                 + b0.val) % 2 ^ 64))
        | _, _, _, _, _, _, _, _ => none

/-- Rust `u64 as i64`: reinterpret the low 64 bits as a two's-complement
signed value. -/
def toI64 (v : Nat) : Int :=
  if v % 2 ^ 64 < 2 ^ 63 then ((v % 2 ^ 64 : Nat) : Int)
  else ((v % 2 ^ 64 : Nat) : Int) - 2 ^ 64

/-- Function `read_i64` from `src/lib.rs`: `Ok(try!(read_u64(data, endianness)) as i64)`. -/
def read_i64 (data : List Byte) (endianness : ByteOrder) :
    Option (Except Error Int) :=
  match read_u64 data endianness with
  | some (Except.ok v) => some (Except.ok (toI64 v))
  | some (Except.error e) => some (Except.error e)
  | none => none

/-- Function `read_f32` from `src/lib.rs`: `read_u32` followed by
`mem::transmute::<u32, f32>`.  The `f32` is modelled by its IEEE-754 bit
pattern, on which the transmute is the identity. -/
def read_f32 (data : List Byte) (endianness : ByteOrder) :
    Option (Except Error Nat) :=
  match read_u32 data endianness with
  | some (Except.ok u) => some (Except.ok u)
  | some (Except.error e) => some (Except.error e)
  | none => none

/-- Function `read_f64` from `src/lib.rs`: `read_u64` followed by
`mem::transmute::<u64, f64>`.  The `f64` is modelled by its IEEE-754 bit
pattern, on which the transmute is the identity. -/
def read_f64 (data : List Byte) (endianness : ByteOrder) :
    Option (Except Error Nat) :=
  match read_u64 data endianness with
  | some (Except.ok u) => some (Except.ok u)
  | some (Except.error e) => some (Except.error e)
  | none => none

/-- The rational value of a finite IEEE-754 binary32 bit pattern:
sign bit 31, biased exponent bits 30..23, mantissa bits 22..0; `none` for
infinities and NaNs (exponent field all ones). -/
def f32ValQ (b : Nat) : Option ℚ :=
  let sign : Nat := b / 2 ^ 31 % 2
  let exp : Nat := b / 2 ^ 23 % 2 ^ 8
  let frac : Nat := b % 2 ^ 23
  if exp = 2 ^ 8 - 1 then
    none
  else if exp = 0 then
    some ((if sign = 1 then (-1 : ℚ) else 1) * (frac : ℚ) *
      (2 : ℚ) ^ (-(149 : ℤ)))
  else
    some ((if sign = 1 then (-1 : ℚ) else 1) * ((2 ^ 23 + frac : Nat) : ℚ) *
      (2 : ℚ) ^ ((exp : ℤ) - 150))

/-- The rational value of a finite IEEE-754 binary64 bit pattern:
sign bit 63, biased exponent bits 62..52, mantissa bits 51..0; `none` for
infinities and NaNs (exponent field all ones). -/
def f64ValQ (b : Nat) : Option ℚ :=
  let sign : Nat := b / 2 ^ 63 % 2
  let exp : Nat := b / 2 ^ 52 % 2 ^ 11
  let frac : Nat := b % 2 ^ 52
  if exp = 2 ^ 11 - 1 then
    none
  else if exp = 0 then
    some ((if sign = 1 then (-1 : ℚ) else 1) * (frac : ℚ) *
      (2 : ℚ) ^ (-(1074 : ℤ)))
  else
    some ((if sign = 1 then (-1 : ℚ) else 1) * ((2 ^ 52 + frac : Nat) : ℚ) *
      (2 : ℚ) ^ ((exp : ℤ) - 1075))

/-! Helper value lemmas: what each unsigned reader returns on a buffer
that starts with enough bytes, and on a short buffer. -/

lemma read_u16_short (data : List Byte) (e : ByteOrder) (h : data.length < 2) :
    read_u16 data e = some (Except.error Error.ShortSlice) := by
  unfold read_u16
  rw [if_pos h]

lemma read_u32_short (data : List Byte) (e : ByteOrder) (h : data.length < 4) :
    read_u32 data e = some (Except.error Error.ShortSlice) := by
  unfold read_u32
  rw [if_pos h]

lemma read_u64_short (data : List Byte) (e : ByteOrder) (h : data.length < 8) :
    read_u64 data e = some (Except.error Error.ShortSlice) := by
  unfold read_u64
  rw [if_pos h]

lemma read_u16_cons (b0 b1 : Byte) (rest : List Byte) (e : ByteOrder) :
    read_u16 (b0 :: b1 :: rest) e =
      some (Except.ok (match e with
        | ByteOrder.BigEndian => b0.val * 2 ^ 8 + b1.val
        | ByteOrder.LittleEndian => b1.val * 2 ^ 8 + b0.val)) := by
  have h0 := b0.isLt
  have h1 := b1.isLt
  cases e <;> simp [read_u16, Nat.shiftLeft_eq] <;>
    rw [if_neg (by omega)] <;>
    simp only [Option.some.injEq, Except.ok.injEq] <;> omega

lemma read_u32_cons (b0 b1 b2 b3 : Byte) (rest : List Byte) (e : ByteOrder) :
    read_u32 (b0 :: b1 :: b2 :: b3 :: rest) e =
      some (Except.ok (match e with
        | ByteOrder.BigEndian =>
            b0.val * 2 ^ 24 + b1.val * 2 ^ 16 + b2.val * 2 ^ 8 + b3.val
        | ByteOrder.LittleEndian =>
            b3.val * 2 ^ 24 + b2.val * 2 ^ 16 + b1.val * 2 ^ 8 + b0.val)) := by
  have h0 := b0.isLt
  have h1 := b1.isLt
  have h2 := b2.isLt
  have h3 := b3.isLt
  cases e <;> simp [read_u32, Nat.shiftLeft_eq] <;>
    rw [if_neg (by omega)] <;>
    simp only [Option.some.injEq, Except.ok.injEq] <;> omega

lemma read_u64_cons (b0 b1 b2 b3 b4 b5 b6 b7 : Byte) (rest : List Byte)
    (e : ByteOrder) :
    read_u64 (b0 :: b1 :: b2 :: b3 :: b4 :: b5 :: b6 :: b7 :: rest) e =
      some (Except.ok (match e with
        | ByteOrder.BigEndian =>
            b0.val * 2 ^ 56 + b1.val * 2 ^ 48 + b2.val * 2 ^ 40 +
            b3.val * 2 ^ 32 + b4.val * 2 ^ 24 + b5.val * 2 ^ 16 +
            b6.val * 2 ^ 8 + b7.val
        | ByteOrder.LittleEndian =>
            b7.val * 2 ^ 56 + b6.val * 2 ^ 48 + b5.val * 2 ^ 40 +
            b4.val * 2 ^ 32 + b3.val * 2 ^ 24 + b2.val * 2 ^ 16 +
            b1.val * 2 ^ 8 + b0.val)) := by
  have h0 := b0.isLt
  have h1 := b1.isLt
  have h2 := b2.isLt
  have h3 := b3.isLt
  have h4 := b4.isLt
  have h5 := b5.isLt
  have h6 := b6.isLt
  have h7 := b7.isLt
  cases e <;> simp [read_u64, Nat.shiftLeft_eq] <;>
    rw [if_neg (by omega)] <;>
    simp only [Option.some.injEq, Except.ok.injEq] <;> omega

lemma exists_cons_of_two_le {data : List Byte} (h : 2 ≤ data.length) :
    ∃ b0 b1 rest, data = b0 :: b1 :: rest := by
  rcases data with _ | ⟨b0, _ | ⟨b1, rest⟩⟩
  · simp at h
  · simp at h
  · exact ⟨b0, b1, rest, rfl⟩

lemma exists_cons_of_four_le {data : List Byte} (h : 4 ≤ data.length) :
    ∃ b0 b1 b2 b3 rest, data = b0 :: b1 :: b2 :: b3 :: rest := by
  rcases data with _ | ⟨b0, _ | ⟨b1, _ | ⟨b2, _ | ⟨b3, rest⟩⟩⟩⟩ <;>
    first
      | exact ⟨_, _, _, _, _, rfl⟩
      | simp at h

lemma exists_cons_of_eight_le {data : List Byte} (h : 8 ≤ data.length) :
    ∃ b0 b1 b2 b3 b4 b5 b6 b7 rest,
      data = b0 :: b1 :: b2 :: b3 :: b4 :: b5 :: b6 :: b7 :: rest := by
  rcases data with
    _ | ⟨b0, _ | ⟨b1, _ | ⟨b2, _ | ⟨b3, _ | ⟨b4, _ | ⟨b5, _ | ⟨b6, _ | ⟨b7, rest⟩⟩⟩⟩⟩⟩⟩⟩ <;>
    first
      | exact ⟨_, _, _, _, _, _, _, _, _, rfl⟩
      | simp at h

/-! Value and short-buffer lemmas for the derived readers. -/

lemma read_i16_cons (b0 b1 : Byte) (rest : List Byte) (e : ByteOrder) :
    read_i16 (b0 :: b1 :: rest) e =
      some (Except.ok (toI16 (match e with
        | ByteOrder.BigEndian => b0.val * 2 ^ 8 + b1.val
        | ByteOrder.LittleEndian => b1.val * 2 ^ 8 + b0.val))) := by
  unfold read_i16
  rw [read_u16_cons]

lemma read_i32_cons (b0 b1 b2 b3 : Byte) (rest : List Byte) (e : ByteOrder) :
    read_i32 (b0 :: b1 :: b2 :: b3 :: rest) e =
      some (Except.ok (toI32 (match e with
        | ByteOrder.BigEndian =>
            b0.val * 2 ^ 24 + b1.val * 2 ^ 16 + b2.val * 2 ^ 8 + b3.val
        | ByteOrder.LittleEndian =>
            b3.val * 2 ^ 24 + b2.val * 2 ^ 16 + b1.val * 2 ^ 8 + b0.val))) := by
  unfold read_i32
  rw [read_u32_cons]

lemma read_i64_cons (b0 b1 b2 b3 b4 b5 b6 b7 : Byte) (rest : List Byte)
    (e : ByteOrder) :
    read_i64 (b0 :: b1 :: b2 :: b3 :: b4 :: b5 :: b6 :: b7 :: rest) e =
      some (Except.ok (toI64 (match e with
        | ByteOrder.BigEndian =>
            b0.val * 2 ^ 56 + b1.val * 2 ^ 48 + b2.val * 2 ^ 40 +
            b3.val * 2 ^ 32 + b4.val * 2 ^ 24 + b5.val * 2 ^ 16 +
            b6.val * 2 ^ 8 + b7.val
        | ByteOrder.LittleEndian =>
            b7.val * 2 ^ 56 + b6.val * 2 ^ 48 + b5.val * 2 ^ 40 +
            b4.val * 2 ^ 32 + b3.val * 2 ^ 24 + b2.val * 2 ^ 16 +
            b1.val * 2 ^ 8 + b0.val))) := by
  unfold read_i64
  rw [read_u64_cons]

lemma read_f32_cons (b0 b1 b2 b3 : Byte) (rest : List Byte) (e : ByteOrder) :
    read_f32 (b0 :: b1 :: b2 :: b3 :: rest) e =
      some (Except.ok (match e with
        | ByteOrder.BigEndian =>
            b0.val * 2 ^ 24 + b1.val * 2 ^ 16 + b2.val * 2 ^ 8 + b3.val
        | ByteOrder.LittleEndian =>
            b3.val * 2 ^ 24 + b2.val * 2 ^ 16 + b1.val * 2 ^ 8 + b0.val)) := by
  unfold read_f32
  rw [read_u32_cons]

lemma read_f64_cons (b0 b1 b2 b3 b4 b5 b6 b7 : Byte) (rest : List Byte)
    (e : ByteOrder) :
    read_f64 (b0 :: b1 :: b2 :: b3 :: b4 :: b5 :: b6 :: b7 :: rest) e =
      some (Except.ok (match e with
        | ByteOrder.BigEndian =>
            b0.val * 2 ^ 56 + b1.val * 2 ^ 48 + b2.val * 2 ^ 40 +
            b3.val * 2 ^ 32 + b4.val * 2 ^ 24 + b5.val * 2 ^ 16 +
            b6.val * 2 ^ 8 + b7.val
        | ByteOrder.LittleEndian =>
            b7.val * 2 ^ 56 + b6.val * 2 ^ 48 + b5.val * 2 ^ 40 +
            b4.val * 2 ^ 32 + b3.val * 2 ^ 24 + b2.val * 2 ^ 16 +
            b1.val * 2 ^ 8 + b0.val)) := by
  unfold read_f64
  rw [read_u64_cons]

lemma read_i16_short (data : List Byte) (e : ByteOrder) (h : data.length < 2) :
    read_i16 data e = some (Except.error Error.ShortSlice) := by
  unfold read_i16
  rw [read_u16_short data e h]

lemma read_i32_short (data : List Byte) (e : ByteOrder) (h : data.length < 4) :
    read_i32 data e = some (Except.error Error.ShortSlice) := by
  unfold read_i32
  rw [read_u32_short data e h]

lemma read_i64_short (data : List Byte) (e : ByteOrder) (h : data.length < 8) :
    read_i64 data e = some (Except.error Error.ShortSlice) := by
  unfold read_i64
  rw [read_u64_short data e h]

lemma read_f32_short (data : List Byte) (e : ByteOrder) (h : data.length < 4) :
    read_f32 data e = some (Except.error Error.ShortSlice) := by
  unfold read_f32
  rw [read_u32_short data e h]

lemma read_f64_short (data : List Byte) (e : ByteOrder) (h : data.length < 8) :
    read_f64 data e = some (Except.error Error.ShortSlice) := by
  unfold read_f64
  rw [read_u64_short data e h]

/-! Success lemmas: a long enough buffer always decodes to `Ok`. -/

lemma read_u16_ok {data : List Byte} (e : ByteOrder) (h : 2 ≤ data.length) :
    ∃ v, read_u16 data e = some (Except.ok v) := by
  obtain ⟨b0, b1, rest, rfl⟩ := exists_cons_of_two_le h
  exact ⟨_, read_u16_cons b0 b1 rest e⟩

lemma read_i16_ok {data : List Byte} (e : ByteOrder) (h : 2 ≤ data.length) :
    ∃ v, read_i16 data e = some (Except.ok v) := by
  obtain ⟨b0, b1, rest, rfl⟩ := exists_cons_of_two_le h
  exact ⟨_, read_i16_cons b0 b1 rest e⟩

lemma read_u32_ok {data : List Byte} (e : ByteOrder) (h : 4 ≤ data.length) :
    ∃ v, read_u32 data e = some (Except.ok v) := by
  obtain ⟨b0, b1, b2, b3, rest, rfl⟩ := exists_cons_of_four_le h
  exact ⟨_, read_u32_cons b0 b1 b2 b3 rest e⟩

lemma read_i32_ok {data : List Byte} (e : ByteOrder) (h : 4 ≤ data.length) :
    ∃ v, read_i32 data e = some (Except.ok v) := by
  obtain ⟨b0, b1, b2, b3, rest, rfl⟩ := exists_cons_of_four_le h
  exact ⟨_, read_i32_cons b0 b1 b2 b3 rest e⟩

lemma read_f32_ok {data : List Byte} (e : ByteOrder) (h : 4 ≤ data.length) :
    ∃ v, read_f32 data e = some (Except.ok v) := by
  obtain ⟨b0, b1, b2, b3, rest, rfl⟩ := exists_cons_of_four_le h
  exact ⟨_, read_f32_cons b0 b1 b2 b3 rest e⟩

lemma read_u64_ok {data : List Byte} (e : ByteOrder) (h : 8 ≤ data.length) :
    ∃ v, read_u64 data e = some (Except.ok v) := by
  obtain ⟨b0, b1, b2, b3, b4, b5, b6, b7, rest, rfl⟩ := exists_cons_of_eight_le h
  exact ⟨_, read_u64_cons b0 b1 b2 b3 b4 b5 b6 b7 rest e⟩

lemma read_i64_ok {data : List Byte} (e : ByteOrder) (h : 8 ≤ data.length) :
    ∃ v, read_i64 data e = some (Except.ok v) := by
  obtain ⟨b0, b1, b2, b3, b4, b5, b6, b7, rest, rfl⟩ := exists_cons_of_eight_le h
  exact ⟨_, read_i64_cons b0 b1 b2 b3 b4 b5 b6 b7 rest e⟩

lemma read_f64_ok {data : List Byte} (e : ByteOrder) (h : 8 ≤ data.length) :
    ∃ v, read_f64 data e = some (Except.ok v) := by
  obtain ⟨b0, b1, b2, b3, b4, b5, b6, b7, rest, rfl⟩ := exists_cons_of_eight_le h
  exact ⟨_, read_f64_cons b0 b1 b2 b3 b4 b5 b6 b7 rest e⟩

/-! Two's-complement reinterpretation facts. -/

lemma toI16_spec (v : Nat) :
    toI16 v % 2 ^ 16 = (v : Int) % 2 ^ 16 ∧
      -2 ^ 15 ≤ toI16 v ∧ toI16 v < 2 ^ 15 := by
  unfold toI16
  have := Nat.mod_lt v (show 0 < 2 ^ 16 by norm_num)
  split <;> refine ⟨?_, ?_, ?_⟩ <;> push_cast <;> omega

lemma toI32_spec (v : Nat) :
    toI32 v % 2 ^ 32 = (v : Int) % 2 ^ 32 ∧
      -2 ^ 31 ≤ toI32 v ∧ toI32 v < 2 ^ 31 := by
  unfold toI32
  have := Nat.mod_lt v (show 0 < 2 ^ 32 by norm_num)
  split <;> refine ⟨?_, ?_, ?_⟩ <;> push_cast <;> omega

lemma toI64_spec (v : Nat) :
    toI64 v % 2 ^ 64 = (v : Int) % 2 ^ 64 ∧
      -2 ^ 63 ≤ toI64 v ∧ toI64 v < 2 ^ 63 := by
  unfold toI64
  have := Nat.mod_lt v (show 0 < 2 ^ 64 by norm_num)
  split <;> refine ⟨?_, ?_, ?_⟩ <;> push_cast <;> omega

/-- Bitwise or coincides with addition when the low `k` bits of `x` are
clear and `y` fits in `k` bits. -/
lemma lor_eq_add_pow {x y : Nat} (k : Nat) (hx : x % 2 ^ k = 0)
    (hy : y < 2 ^ k) : x ||| y = x + y := by
  obtain ⟨a, rfl⟩ := Nat.dvd_of_mod_eq_zero hx
  exact (Nat.mul_add_lt_is_or hy a).symm

/-- C1: for every byte buffer of length at least N and each byte order, the
unsigned decode of width N (`read_u16` for N=2, `read_u32` for N=4,
`read_u64` for N=8) returns `Ok` of exactly the positional sum: with
`BigEndian`, Σ byte[i] <<< (8 × (N−1−i)) for i in [0, N); with
`LittleEndian`, Σ byte[i] <<< (8 × i) for i in [0, N). -/
theorem unsigned_decode_positional_sum :
    (∀ (data : List Byte) (e : ByteOrder), 2 ≤ data.length →
      read_u16 data e = some (Except.ok (match e with
        | ByteOrder.BigEndian =>
            ∑ i in Finset.range 2, (data.getD i 0).val <<< (8 * (2 - 1 - i))
        | ByteOrder.LittleEndian =>
            ∑ i in Finset.range 2, (data.getD i 0).val <<< (8 * i)))) ∧
    (∀ (data : List Byte) (e : ByteOrder), 4 ≤ data.length →
      read_u32 data e = some (Except.ok (match e with
        | ByteOrder.BigEndian =>
            ∑ i in Finset.range 4, (data.getD i 0).val <<< (8 * (4 - 1 - i))
        | ByteOrder.LittleEndian =>
            ∑ i in Finset.range 4, (data.getD i 0).val <<< (8 * i)))) ∧
    (∀ (data : List Byte) (e : ByteOrder), 8 ≤ data.length →
      read_u64 data e = some (Except.ok (match e with
        | ByteOrder.BigEndian =>
            ∑ i in Finset.range 8, (data.getD i 0).val <<< (8 * (8 - 1 - i))
        | ByteOrder.LittleEndian =>
            ∑ i in Finset.range 8, (data.getD i 0).val <<< (8 * i)))) := by
  refine ⟨?_, ?_, ?_⟩ <;> intro data e h
  · obtain ⟨b0, b1, rest, rfl⟩ := exists_cons_of_two_le h
    rw [read_u16_cons]
    cases e <;> simp [Finset.sum_range_succ, List.getD, Nat.shiftLeft_eq]
    all_goals omega
  · obtain ⟨b0, b1, b2, b3, rest, rfl⟩ := exists_cons_of_four_le h
    rw [read_u32_cons]
    cases e <;> simp [Finset.sum_range_succ, List.getD, Nat.shiftLeft_eq]
    all_goals omega
  · obtain ⟨b0, b1, b2, b3, b4, b5, b6, b7, rest, rfl⟩ :=
      exists_cons_of_eight_le h
    rw [read_u64_cons]
    cases e <;> simp [Finset.sum_range_succ, List.getD, Nat.shiftLeft_eq]
    all_goals omega

theorem unsigned_decode_positional_sum_witness :
    read_u16 [1, 2] ByteOrder.BigEndian = some (Except.ok (match
        ByteOrder.BigEndian with
      | ByteOrder.BigEndian =>
          ∑ i in Finset.range 2, (([1, 2] : List Byte).getD i 0).val <<<
            (8 * (2 - 1 - i))
      | ByteOrder.LittleEndian =>
          ∑ i in Finset.range 2, (([1, 2] : List Byte).getD i 0).val <<<
            (8 * i))) ∧
    read_u32 [1, 2, 3, 4] ByteOrder.LittleEndian = some (Except.ok (match
        ByteOrder.LittleEndian with
      | ByteOrder.BigEndian =>
          ∑ i in Finset.range 4, (([1, 2, 3, 4] : List Byte).getD i 0).val <<<
            (8 * (4 - 1 - i))
      | ByteOrder.LittleEndian =>
          ∑ i in Finset.range 4, (([1, 2, 3, 4] : List Byte).getD i 0).val <<<
            (8 * i))) ∧
    read_u64 [1, 2, 3, 4, 5, 6, 7, 8] ByteOrder.BigEndian =
      some (Except.ok (match ByteOrder.BigEndian with
      | ByteOrder.BigEndian =>
          ∑ i in Finset.range 8,
            (([1, 2, 3, 4, 5, 6, 7, 8] : List Byte).getD i 0).val <<<
              (8 * (8 - 1 - i))
      | ByteOrder.LittleEndian =>
          ∑ i in Finset.range 8,
            (([1, 2, 3, 4, 5, 6, 7, 8] : List Byte).getD i 0).val <<<
              (8 * i))) :=
  ⟨unsigned_decode_positional_sum.1 [1, 2] ByteOrder.BigEndian (by decide),
   unsigned_decode_positional_sum.2.1 [1, 2, 3, 4] ByteOrder.LittleEndian
     (by decide),
   unsigned_decode_positional_sum.2.2 [1, 2, 3, 4, 5, 6, 7, 8]
     ByteOrder.BigEndian (by decide)⟩

/-- C2: for every one of the eight operations and both byte orders, a buffer
shorter than the required width yields the short-buffer error (`ShortSlice`
in the code, `ShortBuffer` in the spec's naming), and a buffer of at least
the required width yields a success, never the error. -/
theorem short_buffer_boundary :
    ∀ (data : List Byte) (e : ByteOrder),
      (data.length < 2 →
        read_u16 data e = some (Except.error Error.ShortSlice)) ∧
      (2 ≤ data.length → ∃ v, read_u16 data e = some (Except.ok v)) ∧
      (data.length < 2 →
        read_i16 data e = some (Except.error Error.ShortSlice)) ∧
      (2 ≤ data.length → ∃ v, read_i16 data e = some (Except.ok v)) ∧
      (data.length < 4 →
        read_u32 data e = some (Except.error Error.ShortSlice)) ∧
      (4 ≤ data.length → ∃ v, read_u32 data e = some (Except.ok v)) ∧
      (data.length < 4 →
        read_i32 data e = some (Except.error Error.ShortSlice)) ∧
      (4 ≤ data.length → ∃ v, read_i32 data e = some (Except.ok v)) ∧
      (data.length < 8 →
        read_u64 data e = some (Except.error Error.ShortSlice)) ∧
      (8 ≤ data.length → ∃ v, read_u64 data e = some (Except.ok v)) ∧
      (data.length < 8 →
        read_i64 data e = some (Except.error Error.ShortSlice)) ∧
      (8 ≤ data.length → ∃ v, read_i64 data e = some (Except.ok v)) ∧
      (data.length < 4 →
        read_f32 data e = some (Except.error Error.ShortSlice)) ∧
      (4 ≤ data.length → ∃ v, read_f32 data e = some (Except.ok v)) ∧
      (data.length < 8 →
        read_f64 data e = some (Except.error Error.ShortSlice)) ∧
      (8 ≤ data.length → ∃ v, read_f64 data e = some (Except.ok v)) := by
  intro data e
  exact ⟨read_u16_short data e, read_u16_ok e,
    read_i16_short data e, read_i16_ok e,
    read_u32_short data e, read_u32_ok e,
    read_i32_short data e, read_i32_ok e,
    read_u64_short data e, read_u64_ok e,
    read_i64_short data e, read_i64_ok e,
    read_f32_short data e, read_f32_ok e,
    read_f64_short data e, read_f64_ok e⟩

theorem short_buffer_boundary_witness :
    (read_u16 [1] ByteOrder.BigEndian =
        some (Except.error Error.ShortSlice) ∧
      read_i16 [1] ByteOrder.BigEndian =
        some (Except.error Error.ShortSlice) ∧
      read_u32 [1] ByteOrder.BigEndian =
        some (Except.error Error.ShortSlice) ∧
      read_i32 [1] ByteOrder.BigEndian =
        some (Except.error Error.ShortSlice) ∧
      read_u64 [1] ByteOrder.BigEndian =
        some (Except.error Error.ShortSlice) ∧
      read_i64 [1] ByteOrder.BigEndian =
        some (Except.error Error.ShortSlice) ∧
      read_f32 [1] ByteOrder.BigEndian =
        some (Except.error Error.ShortSlice) ∧
      read_f64 [1] ByteOrder.BigEndian =
        some (Except.error Error.ShortSlice)) ∧
    ((∃ v, read_u16 [1, 2, 3, 4, 5, 6, 7, 8] ByteOrder.LittleEndian =
        some (Except.ok v)) ∧
      (∃ v, read_i16 [1, 2, 3, 4, 5, 6, 7, 8] ByteOrder.LittleEndian =
        some (Except.ok v)) ∧
      (∃ v, read_u32 [1, 2, 3, 4, 5, 6, 7, 8] ByteOrder.LittleEndian =
        some (Except.ok v)) ∧
      (∃ v, read_i32 [1, 2, 3, 4, 5, 6, 7, 8] ByteOrder.LittleEndian =
        some (Except.ok v)) ∧
      (∃ v, read_u64 [1, 2, 3, 4, 5, 6, 7, 8] ByteOrder.LittleEndian =
        some (Except.ok v)) ∧
      (∃ v, read_i64 [1, 2, 3, 4, 5, 6, 7, 8] ByteOrder.LittleEndian =
        some (Except.ok v)) ∧
      (∃ v, read_f32 [1, 2, 3, 4, 5, 6, 7, 8] ByteOrder.LittleEndian =
        some (Except.ok v)) ∧
      (∃ v, read_f64 [1, 2, 3, 4, 5, 6, 7, 8] ByteOrder.LittleEndian =
        some (Except.ok v))) :=
  ⟨⟨(short_buffer_boundary [1] ByteOrder.BigEndian).1 (by decide),
    (short_buffer_boundary [1] ByteOrder.BigEndian).2.2.1 (by decide),
    (short_buffer_boundary [1] ByteOrder.BigEndian).2.2.2.2.1 (by decide),
    (short_buffer_boundary [1] ByteOrder.BigEndian).2.2.2.2.2.2.1 (by decide),
    (short_buffer_boundary [1] ByteOrder.BigEndian).2.2.2.2.2.2.2.2.1
      (by decide),
    (short_buffer_boundary [1] ByteOrder.BigEndian).2.2.2.2.2.2.2.2.2.2.1
      (by decide),
    (short_buffer_boundary [1] ByteOrder.BigEndian).2.2.2.2.2.2.2.2.2.2.2.2.1
      (by decide),
    (short_buffer_boundary [1]
        ByteOrder.BigEndian).2.2.2.2.2.2.2.2.2.2.2.2.2.2.1 (by decide)⟩,
   ⟨(short_buffer_boundary [1, 2, 3, 4, 5, 6, 7, 8]
        ByteOrder.LittleEndian).2.1 (by decide),
    (short_buffer_boundary [1, 2, 3, 4, 5, 6, 7, 8]
        ByteOrder.LittleEndian).2.2.2.1 (by decide),
    (short_buffer_boundary [1, 2, 3, 4, 5, 6, 7, 8]
        ByteOrder.LittleEndian).2.2.2.2.2.1 (by decide),
    (short_buffer_boundary [1, 2, 3, 4, 5, 6, 7, 8]
        ByteOrder.LittleEndian).2.2.2.2.2.2.2.1 (by decide),
    (short_buffer_boundary [1, 2, 3, 4, 5, 6, 7, 8]
        ByteOrder.LittleEndian).2.2.2.2.2.2.2.2.2.1 (by decide),
    (short_buffer_boundary [1, 2, 3, 4, 5, 6, 7, 8]
        ByteOrder.LittleEndian).2.2.2.2.2.2.2.2.2.2.2.1 (by decide),
    (short_buffer_boundary [1, 2, 3, 4, 5, 6, 7, 8]
        ByteOrder.LittleEndian).2.2.2.2.2.2.2.2.2.2.2.2.2.1 (by decide),
    (short_buffer_boundary [1, 2, 3, 4, 5, 6, 7, 8]
        ByteOrder.LittleEndian).2.2.2.2.2.2.2.2.2.2.2.2.2.2.2 (by decide)⟩⟩

/-- C5: for all bytes a and b, `read_u16 [a, b] BigEndian` equals
`read_u16 [b, a] LittleEndian`. -/
theorem order_equivalence_u16 (a b : Byte) :
    read_u16 [a, b] ByteOrder.BigEndian =
      read_u16 [b, a] ByteOrder.LittleEndian := by
  rw [read_u16_cons, read_u16_cons]

theorem order_equivalence_u16_witness :
    read_u16 [1, 2] ByteOrder.BigEndian =
      read_u16 [2, 1] ByteOrder.LittleEndian :=
  order_equivalence_u16 1 2

/-- C7 counterexample: decoding `[0, 128]` with `BigEndian` into a signed
16-bit value yields 128, not −32768 as the claim states. -/
theorem read_i16_bigendian_0_128_is_128 :
    read_i16 [0, 128] ByteOrder.BigEndian = some (Except.ok 128) ∧
    read_i16 [0, 128] ByteOrder.BigEndian ≠
      some (Except.ok (-32768)) := by
  decide

/-- C7 amended: decoding `[0, 128]` with LittleEndian into a signed 16-bit
value yields −32768, not 128 (byte 128 lands in the high position there, as
in the crate's own doc example). -/
theorem read_i16_littleendian_0_128_is_neg32768 :
    read_i16 [0, 128] ByteOrder.LittleEndian =
      some (Except.ok (-32768)) ∧
    read_i16 [0, 128] ByteOrder.LittleEndian ≠ some (Except.ok 128) := by
  decide

/-- C8: `read_u16 [1, 2] BigEndian = Ok 258` and
`read_u16 [1, 2] LittleEndian = Ok 513`. -/
theorem read_u16_concrete_examples :
    read_u16 [1, 2] ByteOrder.BigEndian = some (Except.ok 258) ∧
    read_u16 [1, 2] ByteOrder.LittleEndian = some (Except.ok 513) := by
  decide

/-- C3: for every byte buffer and byte order, the signed decode equals the
two's-complement bit reinterpretation of the unsigned decode of the same
width: the signed result is congruent to the unsigned result modulo 2^N and
lies in [−2^(N−1), 2^(N−1)); in particular
`read_i16 [0, 128] LittleEndian = Ok (−32768)` and
`read_i16 [128, 0] BigEndian = Ok (−32768)`. -/
theorem signed_is_reinterpreted_unsigned :
    (∀ (data : List Byte) (e : ByteOrder) (v : Nat),
      read_u16 data e = some (Except.ok v) →
        ∃ w, read_i16 data e = some (Except.ok w) ∧
          w % 2 ^ 16 = (v : ℤ) % 2 ^ 16 ∧ -2 ^ 15 ≤ w ∧ w < 2 ^ 15) ∧
    (∀ (data : List Byte) (e : ByteOrder) (v : Nat),
      read_u32 data e = some (Except.ok v) →
        ∃ w, read_i32 data e = some (Except.ok w) ∧
          w % 2 ^ 32 = (v : ℤ) % 2 ^ 32 ∧ -2 ^ 31 ≤ w ∧ w < 2 ^ 31) ∧
    (∀ (data : List Byte) (e : ByteOrder) (v : Nat),
      read_u64 data e = some (Except.ok v) →
        ∃ w, read_i64 data e = some (Except.ok w) ∧
          w % 2 ^ 64 = (v : ℤ) % 2 ^ 64 ∧ -2 ^ 63 ≤ w ∧ w < 2 ^ 63) ∧
    read_i16 [0, 128] ByteOrder.LittleEndian =
      some (Except.ok (-32768)) ∧
    read_i16 [128, 0] ByteOrder.BigEndian = some (Except.ok (-32768)) := by
  refine ⟨?_, ?_, ?_, by decide, by decide⟩
  · intro data e v hv
    exact ⟨toI16 v, by simp [read_i16, hv], (toI16_spec v).1,
      (toI16_spec v).2.1, (toI16_spec v).2.2⟩
  · intro data e v hv
    exact ⟨toI32 v, by simp [read_i32, hv], (toI32_spec v).1,
      (toI32_spec v).2.1, (toI32_spec v).2.2⟩
  · intro data e v hv
    exact ⟨toI64 v, by simp [read_i64, hv], (toI64_spec v).1,
      (toI64_spec v).2.1, (toI64_spec v).2.2⟩

theorem signed_is_reinterpreted_unsigned_witness :
    ∃ w, read_i16 [0, 128] ByteOrder.LittleEndian =
        some (Except.ok w) ∧
      w % 2 ^ 16 = ((32768 : Nat) : ℤ) % 2 ^ 16 ∧
      -2 ^ 15 ≤ w ∧ w < 2 ^ 15 :=
  signed_is_reinterpreted_unsigned.1 [0, 128] ByteOrder.LittleEndian 32768
    (by decide)

/-- C4: for every buffer of at least the required width, the float decodes
return the same-size bit-pattern relabeling of the matching unsigned
integer decode (no numeric conversion, no validation of special values);
in particular `read_f32 [0xC2, 0xFF, 0x00, 0x00] BigEndian` is the bit
pattern 0xC2FF0000, whose IEEE-754 binary32 value is −127.5. -/
theorem float_decode_is_bit_relabel :
    (∀ (data : List Byte) (e : ByteOrder), 4 ≤ data.length →
      ∃ u, read_u32 data e = some (Except.ok u) ∧
        read_f32 data e = some (Except.ok u)) ∧
    (∀ (data : List Byte) (e : ByteOrder), 8 ≤ data.length →
      ∃ u, read_u64 data e = some (Except.ok u) ∧
        read_f64 data e = some (Except.ok u)) ∧
    read_f32 [0xC2, 0xFF, 0x00, 0x00] ByteOrder.BigEndian =
      some (Except.ok 0xC2FF0000) ∧
    f32ValQ 0xC2FF0000 = some (-(255 / 2 : ℚ)) := by
  refine ⟨?_, ?_, by decide, by norm_num [f32ValQ]⟩
  · intro data e h
    obtain ⟨b0, b1, b2, b3, rest, rfl⟩ := exists_cons_of_four_le h
    exact ⟨_, read_u32_cons b0 b1 b2 b3 rest e,
      read_f32_cons b0 b1 b2 b3 rest e⟩
  · intro data e h
    obtain ⟨b0, b1, b2, b3, b4, b5, b6, b7, rest, rfl⟩ :=
      exists_cons_of_eight_le h
    exact ⟨_, read_u64_cons b0 b1 b2 b3 b4 b5 b6 b7 rest e,
      read_f64_cons b0 b1 b2 b3 b4 b5 b6 b7 rest e⟩

theorem float_decode_is_bit_relabel_witness :
    (∃ u, read_u32 [0xC2, 0xFF, 0x00, 0x00] ByteOrder.BigEndian =
        some (Except.ok u) ∧
      read_f32 [0xC2, 0xFF, 0x00, 0x00] ByteOrder.BigEndian =
        some (Except.ok u)) ∧
    (∃ u, read_u64 [1, 2, 3, 4, 5, 6, 7, 8] ByteOrder.LittleEndian =
        some (Except.ok u) ∧
      read_f64 [1, 2, 3, 4, 5, 6, 7, 8] ByteOrder.LittleEndian =
        some (Except.ok u)) :=
  ⟨float_decode_is_bit_relabel.1 [0xC2, 0xFF, 0x00, 0x00]
      ByteOrder.BigEndian (by decide),
   float_decode_is_bit_relabel.2.1 [1, 2, 3, 4, 5, 6, 7, 8]
      ByteOrder.LittleEndian (by decide)⟩

/-- C6: for every operation, every byte order, and every buffer at least as
long as the operation's required width, the result equals the result of the
same operation on the prefix of the buffer of exactly the required length;
bytes beyond the required width never influence the outcome. -/
theorem oversized_buffer_ignores_extra_bytes :
    ∀ (data : List Byte) (e : ByteOrder),
      (2 ≤ data.length → read_u16 data e = read_u16 (data.take 2) e) ∧
      (2 ≤ data.length → read_i16 data e = read_i16 (data.take 2) e) ∧
      (4 ≤ data.length → read_u32 data e = read_u32 (data.take 4) e) ∧
      (4 ≤ data.length → read_i32 data e = read_i32 (data.take 4) e) ∧
      (4 ≤ data.length → read_f32 data e = read_f32 (data.take 4) e) ∧
      (8 ≤ data.length → read_u64 data e = read_u64 (data.take 8) e) ∧
      (8 ≤ data.length → read_i64 data e = read_i64 (data.take 8) e) ∧
      (8 ≤ data.length → read_f64 data e = read_f64 (data.take 8) e) := by
  intro data e
  refine ⟨?_, ?_, ?_, ?_, ?_, ?_, ?_, ?_⟩ <;> intro h
  · obtain ⟨b0, b1, rest, rfl⟩ := exists_cons_of_two_le h
    rw [show (b0 :: b1 :: rest).take 2 = [b0, b1] from rfl,
      read_u16_cons, read_u16_cons]
  · obtain ⟨b0, b1, rest, rfl⟩ := exists_cons_of_two_le h
    rw [show (b0 :: b1 :: rest).take 2 = [b0, b1] from rfl,
      read_i16_cons, read_i16_cons]
  · obtain ⟨b0, b1, b2, b3, rest, rfl⟩ := exists_cons_of_four_le h
    rw [show (b0 :: b1 :: b2 :: b3 :: rest).take 4 = [b0, b1, b2, b3]
        from rfl,
      read_u32_cons, read_u32_cons]
  · obtain ⟨b0, b1, b2, b3, rest, rfl⟩ := exists_cons_of_four_le h
    rw [show (b0 :: b1 :: b2 :: b3 :: rest).take 4 = [b0, b1, b2, b3]
        from rfl,
      read_i32_cons, read_i32_cons]
  · obtain ⟨b0, b1, b2, b3, rest, rfl⟩ := exists_cons_of_four_le h
    rw [show (b0 :: b1 :: b2 :: b3 :: rest).take 4 = [b0, b1, b2, b3]
        from rfl,
      read_f32_cons, read_f32_cons]
  · obtain ⟨b0, b1, b2, b3, b4, b5, b6, b7, rest, rfl⟩ :=
      exists_cons_of_eight_le h
    rw [show (b0 :: b1 :: b2 :: b3 :: b4 :: b5 :: b6 :: b7 :: rest).take 8 =
        [b0, b1, b2, b3, b4, b5, b6, b7] from rfl,
      read_u64_cons, read_u64_cons]
  · obtain ⟨b0, b1, b2, b3, b4, b5, b6, b7, rest, rfl⟩ :=
      exists_cons_of_eight_le h
    rw [show (b0 :: b1 :: b2 :: b3 :: b4 :: b5 :: b6 :: b7 :: rest).take 8 =
        [b0, b1, b2, b3, b4, b5, b6, b7] from rfl,
      read_i64_cons, read_i64_cons]
  · obtain ⟨b0, b1, b2, b3, b4, b5, b6, b7, rest, rfl⟩ :=
      exists_cons_of_eight_le h
    rw [show (b0 :: b1 :: b2 :: b3 :: b4 :: b5 :: b6 :: b7 :: rest).take 8 =
        [b0, b1, b2, b3, b4, b5, b6, b7] from rfl,
      read_f64_cons, read_f64_cons]

theorem oversized_buffer_ignores_extra_bytes_witness :
    (read_u16 [1, 2, 3, 4, 5, 6, 7, 8, 9] ByteOrder.BigEndian =
      read_u16 (([1, 2, 3, 4, 5, 6, 7, 8, 9] : List Byte).take 2)
        ByteOrder.BigEndian) ∧
    (read_i16 [1, 2, 3, 4, 5, 6, 7, 8, 9] ByteOrder.BigEndian =
      read_i16 (([1, 2, 3, 4, 5, 6, 7, 8, 9] : List Byte).take 2)
        ByteOrder.BigEndian) ∧
    (read_u32 [1, 2, 3, 4, 5, 6, 7, 8, 9] ByteOrder.BigEndian =
      read_u32 (([1, 2, 3, 4, 5, 6, 7, 8, 9] : List Byte).take 4)
        ByteOrder.BigEndian) ∧
    (read_i32 [1, 2, 3, 4, 5, 6, 7, 8, 9] ByteOrder.BigEndian =
      read_i32 (([1, 2, 3, 4, 5, 6, 7, 8, 9] : List Byte).take 4)
        ByteOrder.BigEndian) ∧
    (read_f32 [1, 2, 3, 4, 5, 6, 7, 8, 9] ByteOrder.BigEndian =
      read_f32 (([1, 2, 3, 4, 5, 6, 7, 8, 9] : List Byte).take 4)
        ByteOrder.BigEndian) ∧
    (read_u64 [1, 2, 3, 4, 5, 6, 7, 8, 9] ByteOrder.BigEndian =
      read_u64 (([1, 2, 3, 4, 5, 6, 7, 8, 9] : List Byte).take 8)
        ByteOrder.BigEndian) ∧
    (read_i64 [1, 2, 3, 4, 5, 6, 7, 8, 9] ByteOrder.BigEndian =
      read_i64 (([1, 2, 3, 4, 5, 6, 7, 8, 9] : List Byte).take 8)
        ByteOrder.BigEndian) ∧
    (read_f64 [1, 2, 3, 4, 5, 6, 7, 8, 9] ByteOrder.BigEndian =
      read_f64 (([1, 2, 3, 4, 5, 6, 7, 8, 9] : List Byte).take 8)
        ByteOrder.BigEndian) :=
  ⟨(oversized_buffer_ignores_extra_bytes [1, 2, 3, 4, 5, 6, 7, 8, 9]
      ByteOrder.BigEndian).1 (by decide),
   (oversized_buffer_ignores_extra_bytes [1, 2, 3, 4, 5, 6, 7, 8, 9]
      ByteOrder.BigEndian).2.1 (by decide),
   (oversized_buffer_ignores_extra_bytes [1, 2, 3, 4, 5, 6, 7, 8, 9]
      ByteOrder.BigEndian).2.2.1 (by decide),
   (oversized_buffer_ignores_extra_bytes [1, 2, 3, 4, 5, 6, 7, 8, 9]
      ByteOrder.BigEndian).2.2.2.1 (by decide),
   (oversized_buffer_ignores_extra_bytes [1, 2, 3, 4, 5, 6, 7, 8, 9]
      ByteOrder.BigEndian).2.2.2.2.1 (by decide),
   (oversized_buffer_ignores_extra_bytes [1, 2, 3, 4, 5, 6, 7, 8, 9]
      ByteOrder.BigEndian).2.2.2.2.2.1 (by decide),
   (oversized_buffer_ignores_extra_bytes [1, 2, 3, 4, 5, 6, 7, 8, 9]
      ByteOrder.BigEndian).2.2.2.2.2.2.1 (by decide),
   (oversized_buffer_ignores_extra_bytes [1, 2, 3, 4, 5, 6, 7, 8, 9]
      ByteOrder.BigEndian).2.2.2.2.2.2.2 (by decide)⟩

/-- C9: every one of the eight read functions is total: the panic branch of
slice indexing (modelled by `none`) is unreachable, and the only possible
outcomes are `Ok` of a value or `Err ShortSlice`. -/
theorem read_total_ok_or_shortslice :
    ∀ (data : List Byte) (e : ByteOrder),
      (read_u16 data e = some (Except.error Error.ShortSlice) ∨
        ∃ v, read_u16 data e = some (Except.ok v)) ∧
      (read_i16 data e = some (Except.error Error.ShortSlice) ∨
        ∃ v, read_i16 data e = some (Except.ok v)) ∧
      (read_u32 data e = some (Except.error Error.ShortSlice) ∨
        ∃ v, read_u32 data e = some (Except.ok v)) ∧
      (read_i32 data e = some (Except.error Error.ShortSlice) ∨
        ∃ v, read_i32 data e = some (Except.ok v)) ∧
      (read_u64 data e = some (Except.error Error.ShortSlice) ∨
        ∃ v, read_u64 data e = some (Except.ok v)) ∧
      (read_i64 data e = some (Except.error Error.ShortSlice) ∨
        ∃ v, read_i64 data e = some (Except.ok v)) ∧
      (read_f32 data e = some (Except.error Error.ShortSlice) ∨
        ∃ v, read_f32 data e = some (Except.ok v)) ∧
      (read_f64 data e = some (Except.error Error.ShortSlice) ∨
        ∃ v, read_f64 data e = some (Except.ok v)) := by
  intro data e
  refine ⟨?_, ?_, ?_, ?_, ?_, ?_, ?_, ?_⟩
  · rcases Nat.lt_or_ge data.length 2 with h | h
    · exact Or.inl (read_u16_short data e h)
    · exact Or.inr (read_u16_ok e h)
  · rcases Nat.lt_or_ge data.length 2 with h | h
    · exact Or.inl (read_i16_short data e h)
    · exact Or.inr (read_i16_ok e h)
  · rcases Nat.lt_or_ge data.length 4 with h | h
    · exact Or.inl (read_u32_short data e h)
    · exact Or.inr (read_u32_ok e h)
  · rcases Nat.lt_or_ge data.length 4 with h | h
    · exact Or.inl (read_i32_short data e h)
    · exact Or.inr (read_i32_ok e h)
  · rcases Nat.lt_or_ge data.length 8 with h | h
    · exact Or.inl (read_u64_short data e h)
    · exact Or.inr (read_u64_ok e h)
  · rcases Nat.lt_or_ge data.length 8 with h | h
    · exact Or.inl (read_i64_short data e h)
    · exact Or.inr (read_i64_ok e h)
  · rcases Nat.lt_or_ge data.length 4 with h | h
    · exact Or.inl (read_f32_short data e h)
    · exact Or.inr (read_f32_ok e h)
  · rcases Nat.lt_or_ge data.length 8 with h | h
    · exact Or.inl (read_f64_short data e h)
    · exact Or.inr (read_f64_ok e h)

/-- C10: in each unsigned assembly expression the shifted byte terms occupy
pairwise disjoint bit ranges, so the additions never exceed 2^width − 1 (no
wraparound) and `+` yields the same result as bitwise or of the shifted
terms, for both byte orders. -/
theorem assembly_no_overflow_add_is_or :
    ∀ (b0 b1 b2 b3 b4 b5 b6 b7 : Byte) (rest : List Byte) (e : ByteOrder),
      (b0.val <<< 8 + b1.val < 2 ^ 16 ∧
        read_u16 (b0 :: b1 :: rest) e = some (Except.ok (match e with
          | ByteOrder.BigEndian => b0.val <<< 8 ||| b1.val
          | ByteOrder.LittleEndian => b1.val <<< 8 ||| b0.val))) ∧
      (b0.val <<< 24 + b1.val <<< 16 + b2.val <<< 8 + b3.val < 2 ^ 32 ∧
        read_u32 (b0 :: b1 :: b2 :: b3 :: rest) e =
          some (Except.ok (match e with
          | ByteOrder.BigEndian =>
              b0.val <<< 24 ||| b1.val <<< 16 ||| b2.val <<< 8 ||| b3.val
          | ByteOrder.LittleEndian =>
              b3.val <<< 24 ||| b2.val <<< 16 ||| b1.val <<< 8 ||| b0.val))) ∧
      (b0.val <<< 56 + b1.val <<< 48 + b2.val <<< 40 + b3.val <<< 32 +
          b4.val <<< 24 + b5.val <<< 16 + b6.val <<< 8 + b7.val < 2 ^ 64 ∧
        read_u64 (b0 :: b1 :: b2 :: b3 :: b4 :: b5 :: b6 :: b7 :: rest) e =
          some (Except.ok (match e with
          | ByteOrder.BigEndian =>
              b0.val <<< 56 ||| b1.val <<< 48 ||| b2.val <<< 40 |||
              b3.val <<< 32 ||| b4.val <<< 24 ||| b5.val <<< 16 |||
              b6.val <<< 8 ||| b7.val
          | ByteOrder.LittleEndian =>
              b7.val <<< 56 ||| b6.val <<< 48 ||| b5.val <<< 40 |||
              b4.val <<< 32 ||| b3.val <<< 24 ||| b2.val <<< 16 |||
              b1.val <<< 8 ||| b0.val))) := by
  intro b0 b1 b2 b3 b4 b5 b6 b7 rest e
  have h0 := b0.isLt
  have h1 := b1.isLt
  have h2 := b2.isLt
  have h3 := b3.isLt
  have h4 := b4.isLt
  have h5 := b5.isLt
  have h6 := b6.isLt
  have h7 := b7.isLt
  have or2 : ∀ x y : Byte,
      x.val <<< 8 ||| y.val = x.val * 2 ^ 8 + y.val := by
    intro x y
    have hx := x.isLt
    have hy := y.isLt
    rw [Nat.shiftLeft_eq]
    exact lor_eq_add_pow 8 (by omega) (by omega)
  have or4 : ∀ x y z w : Byte,
      x.val <<< 24 ||| y.val <<< 16 ||| z.val <<< 8 ||| w.val =
        x.val * 2 ^ 24 + y.val * 2 ^ 16 + z.val * 2 ^ 8 + w.val := by
    intro x y z w
    have hx := x.isLt
    have hy := y.isLt
    have hz := z.isLt
    have hw := w.isLt
    simp only [Nat.shiftLeft_eq]
    symm
    rw [← lor_eq_add_pow 8 (by omega) (by omega),
      ← lor_eq_add_pow 16 (by omega) (by omega),
      ← lor_eq_add_pow 24 (by omega) (by omega)]
  have or8 : ∀ x0 x1 x2 x3 x4 x5 x6 x7 : Byte,
      x0.val <<< 56 ||| x1.val <<< 48 ||| x2.val <<< 40 ||| x3.val <<< 32 |||
        x4.val <<< 24 ||| x5.val <<< 16 ||| x6.val <<< 8 ||| x7.val =
      x0.val * 2 ^ 56 + x1.val * 2 ^ 48 + x2.val * 2 ^ 40 + x3.val * 2 ^ 32 +
        x4.val * 2 ^ 24 + x5.val * 2 ^ 16 + x6.val * 2 ^ 8 + x7.val := by
    intro x0 x1 x2 x3 x4 x5 x6 x7
    have g0 := x0.isLt
    have g1 := x1.isLt
    have g2 := x2.isLt
    have g3 := x3.isLt
    have g4 := x4.isLt
    have g5 := x5.isLt
    have g6 := x6.isLt
    have g7 := x7.isLt
    simp only [Nat.shiftLeft_eq]
    symm
    rw [← lor_eq_add_pow 8 (by omega) (by omega),
      ← lor_eq_add_pow 16 (by omega) (by omega),
      ← lor_eq_add_pow 24 (by omega) (by omega),
      ← lor_eq_add_pow 32 (by omega) (by omega),
      ← lor_eq_add_pow 40 (by omega) (by omega),
      ← lor_eq_add_pow 48 (by omega) (by omega),
      ← lor_eq_add_pow 56 (by omega) (by omega)]
  refine ⟨⟨?_, ?_⟩, ⟨?_, ?_⟩, ⟨?_, ?_⟩⟩
  · simp only [Nat.shiftLeft_eq]
    omega
  · rw [read_u16_cons]
    cases e <;> simp only [or2]
  · simp only [Nat.shiftLeft_eq]
    omega
  · rw [read_u32_cons]
    cases e <;> simp only [or4]
  · simp only [Nat.shiftLeft_eq]
    omega
  · rw [read_u64_cons]
    cases e <;> simp only [or8]

end Endianness
